import Mathlib

/-!
Verification of the concurrent probe engine of the OSINT username checker
(src/osint_username_checker.py), as a shallow embedding.

Modelling decisions:
* A `url_template` is a parsed Python format string: a list of literal
  segments and named replacement fields.  `formatTemplate` models
  `str.format` called with the single keyword argument `username`:
  it succeeds iff every field is named `username`, and returns `none`
  when a field has another name (Python raises `KeyError`).
* A probe's transport outcome (the result of `client.get`) is given as
  an oracle value: either a completed response (status code and body
  text) or one of the exception classes the code catches.
* `check_username` returns `none` when the Python function raises past
  its own boundary, and otherwise `some (verdict, slept)` where `slept`
  records whether the rate-limit sleep at line 106 was executed.
* `scan_username` folds `categorize` (the as_completed loop body,
  lines 152-163) over the list of verdicts in completion order; the
  completion order is an arbitrary permutation of the per-site verdicts
  computed by `probeVerdicts`.
-/

namespace OSINT

/-- One piece of a parsed Python format string: literal text or a named
replacement field. -/
inductive TemplateItem where
  | lit (s : String)
  | field (name : String)
deriving DecidableEq, Repr

/-- Site Descriptor: one entry of the `sites` list consumed by
`check_username` (keys `name`, `url_template`, `detection_type`, and the
optional `error_message`). -/
structure Site where
  name : String
  url_template : List TemplateItem
  detection_type : String
  error_message : Option String
deriving DecidableEq, Repr

/-- Python `template.format(username=u)` (line 61): substitutes `u` for
every field named `username`; any other field name raises `KeyError`,
modelled as `none`. -/
def formatTemplate (t : List TemplateItem) (username : String) : Option String :=
  match t with
  | [] => some ""
  | TemplateItem.lit s :: rest =>
      (formatTemplate rest username).map (fun r => s ++ r)
  | TemplateItem.field n :: rest =>
      if n = "username" then (formatTemplate rest username).map (fun r => username ++ r)
      else none

/-- The outcome of the awaited `client.get` call (line 76): a completed
HTTP response, or one of the exception classes caught at lines 108-117. -/
inductive TransportOutcome where
  | response (status_code : Nat) (text : String)
  | timeoutException
  | connectError
  | unsupportedProtocol
  | otherException (msg : String)
deriving DecidableEq, Repr

/-- True when the transport outcome is an exception rather than a
completed response. -/
def isTransportFailure : TransportOutcome → Bool
  | TransportOutcome.response _ _ => false
  | _ => true

/-- True when the transport outcome is a completed response. -/
def isResponse : TransportOutcome → Bool
  | TransportOutcome.response _ _ => true
  | _ => false

/-- Probe Outcome (Verdict): the `result` dict built by `check_username`
(lines 64-69), with the status strings used by the source. -/
structure Verdict where
  site : String
  url : String
  status : String
  error : Option String
deriving DecidableEq, Repr

/-- Does the character list start with the given pattern? -/
def startsWithPat : List Char → List Char → Bool
  | [], _ => true
  | _ :: _, [] => false
  | p :: ps, c :: cs => p = c && startsWithPat ps cs

/-- Does the pattern occur as a contiguous run of the character list? -/
def occursIn (pat : List Char) : List Char → Bool
  | [] => pat.isEmpty
  | c :: cs => startsWithPat pat (c :: cs) || occursIn pat cs

/-- Python `s.lower()`: lowercase each character. -/
def pyLower (s : String) : String := String.mk (s.data.map Char.toLower)

/-- Python substring test `pat in s` (used at line 95); the empty
pattern occurs in every string. -/
def strContains (s pat : String) : Bool := occursIn pat.data s.data

/-- `UsernameChecker.check_username` (lines 58-121), with the transport
outcome supplied as an oracle.  Returns `none` when the function raises
past its boundary (URL resolution at line 61 is outside the `try`
block), and otherwise `some (result, slept)` where `slept` records
whether the rate-limit sleep (line 106) ran before returning. -/
def check_username (site : Site) (username : String) (outcome : TransportOutcome) :
    Option (Verdict × Bool) :=
  match formatTemplate site.url_template username with
  | none => none
  | some url =>
    let base : Verdict := { site := site.name, url := url, status := "unknown", error := none }
    match outcome with
    | TransportOutcome.response code text =>
        let r :=
          if site.detection_type = "status_code" then
            if code = 200 then { base with status := "found" }
            else if code = 404 then { base with status := "not_found" }
            else { base with
                   status := "unknown"
                   error := some ("Unexpected status: " ++ toString code) }
          else if site.detection_type = "message_body" then
            let em := site.error_message.getD ""
            if code = 200 then
              if em != "" && strContains (pyLower text) (pyLower em) then
                { base with status := "not_found" }
              else
                { base with status := "found" }
            else if code = 404 then { base with status := "not_found" }
            else { base with
                   status := "unknown"
                   error := some ("Status: " ++ toString code) }
          else base
        some (r, true)
    | TransportOutcome.timeoutException =>
        some ({ base with status := "error", error := some "Timeout" }, false)
    | TransportOutcome.connectError =>
        some ({ base with status := "error", error := some "Connection failed" }, false)
    | TransportOutcome.unsupportedProtocol =>
        some ({ base with status := "error", error := some "SSL/TLS error" }, false)
    | TransportOutcome.otherException msg =>
        some ({ base with status := "error", error := some msg }, false)

/-- The Result Set accumulator `self.results` (line 36). -/
structure Results where
  found : List Verdict
  not_found : List Verdict
  errors : List Verdict
deriving DecidableEq, Repr

/-- The fresh accumulator built in `__init__` (line 36). -/
def initResults : Results :=
  { found := [], not_found := [], errors := [] }

/-- The body of the as_completed loop (lines 156-161): append the verdict
to exactly one of the three buckets. -/
def categorize (results : Results) (r : Verdict) : Results :=
  if r.status = "found" then { results with found := results.found ++ [r] }
  else if r.status = "not_found" then { results with not_found := results.not_found ++ [r] }
  else { results with errors := results.errors ++ [r] }

/-- `UsernameChecker.scan_username` (lines 123-165) on a fresh checker:
fold the loop body over the verdicts in completion order.  `completed`
is the list of verdicts in whichever order the probes finished, a
permutation of `probeVerdicts` below. -/
def scan_username (completed : List Verdict) : Results :=
  completed.foldl categorize initResults

/-- The verdicts of the per-site probes in submission order (line 149),
with the transport oracle giving each probe's outcome; `none` when some
probe raises (which would also crash the awaiting coordinator). -/
def probeVerdicts (sites : List Site) (username : String)
    (transport : Site → TransportOutcome) : Option (List Verdict) :=
  match sites with
  | [] => some []
  | s :: rest =>
    match check_username s username (transport s) with
    | none => none
    | some p => (probeVerdicts rest username transport).map (fun vs => p.1 :: vs)

/-- All verdicts of a Result Set, buckets concatenated. -/
def allVerdicts (r : Results) : List Verdict :=
  r.found ++ r.not_found ++ r.errors

/-- The diagnostic string assigned by the exception handlers at lines
108-119 to each transport failure; `none` on a completed response. -/
def failureDiagnostic : TransportOutcome → Option String
  | TransportOutcome.response _ _ => none
  | TransportOutcome.timeoutException => some "Timeout"
  | TransportOutcome.connectError => some "Connection failed"
  | TransportOutcome.unsupportedProtocol => some "SSL/TLS error"
  | TransportOutcome.otherException msg => some msg

/-- A status_code site with a well-formed template, for concrete runs. -/
def goodSite : Site :=
  { name := "GitHub"
    url_template := [TemplateItem.lit "https://github.com/", TemplateItem.field "username"]
    detection_type := "status_code"
    error_message := none }

/-- A site whose url_template names its field `user` rather than
`username`, so `format(username=...)` raises `KeyError` at line 61. -/
def badTemplateSite : Site :=
  { name := "BadSite"
    url_template := [TemplateItem.lit "https://x.test/", TemplateItem.field "user"]
    detection_type := "status_code"
    error_message := none }

/-- A message_body site with the spec's example marker. -/
def mbSite : Site :=
  { name := "MB"
    url_template := [TemplateItem.lit "https://mb.test/", TemplateItem.field "username"]
    detection_type := "message_body"
    error_message := some "user not found" }

/-- A message_body site whose descriptor omits `error_message`. -/
def noMarkerSite : Site :=
  { name := "NM"
    url_template := [TemplateItem.lit "https://nm.test/", TemplateItem.field "username"]
    detection_type := "message_body"
    error_message := none }

/-- A status_code site named A, for the two-site mock scan. -/
def siteA : Site :=
  { name := "A"
    url_template := [TemplateItem.lit "https://a.test/", TemplateItem.field "username"]
    detection_type := "status_code"
    error_message := none }

/-- A status_code site named B, for the two-site mock scan. -/
def siteB : Site :=
  { name := "B"
    url_template := [TemplateItem.lit "https://b.test/", TemplateItem.field "username"]
    detection_type := "status_code"
    error_message := none }

/-- A transport where every probe times out. -/
def failTransport : Site → TransportOutcome :=
  fun _ => TransportOutcome.timeoutException

/-- A deterministic mock transport: site A answers 200, others 404. -/
def mockTransport : Site → TransportOutcome :=
  fun s => if s.name = "A" then TransportOutcome.response 200 ""
           else TransportOutcome.response 404 ""

/-- The verdict `goodSite` yields for alice under `failTransport`. -/
def vTimeout : Verdict :=
  { site := "GitHub", url := "https://github.com/alice", status := "error", error := some "Timeout" }

/-- The verdict `siteA` yields for alice under `mockTransport`. -/
def vA : Verdict :=
  { site := "A", url := "https://a.test/alice", status := "found", error := none }

/-- The verdict `siteB` yields for alice under `mockTransport`. -/
def vB : Verdict :=
  { site := "B", url := "https://b.test/alice", status := "not_found", error := none }

lemma categorize_length (r : Results) (v : Verdict) :
    (categorize r v).found.length + (categorize r v).not_found.length +
      (categorize r v).errors.length =
    r.found.length + r.not_found.length + r.errors.length + 1 := by
  unfold categorize
  by_cases h1 : v.status = "found"
  · simp [h1]; omega
  · by_cases h2 : v.status = "not_found"
    · simp [h1, h2]; omega
    · simp [h1, h2]; omega

lemma foldl_categorize_length (l : List Verdict) (r : Results) :
    (l.foldl categorize r).found.length + (l.foldl categorize r).not_found.length +
      (l.foldl categorize r).errors.length =
    r.found.length + r.not_found.length + r.errors.length + l.length := by
  induction l generalizing r with
  | nil => simp
  | cons v t ih =>
      simp only [List.foldl_cons]
      rw [ih]
      have := categorize_length r v
      simp only [List.length_cons]
      omega

lemma categorize_allVerdicts (r : Results) (v : Verdict) :
    (allVerdicts (categorize r v) : Multiset Verdict) = (allVerdicts r : Multiset Verdict) + {v} := by
  unfold categorize allVerdicts
  by_cases h1 : v.status = "found"
  · simp only [h1, if_pos, if_true]
    simp only [← Multiset.coe_add, ← Multiset.cons_coe, ← Multiset.singleton_add]
    abel
  · by_cases h2 : v.status = "not_found"
    · simp [h1, h2]
      simp only [← Multiset.coe_add, ← Multiset.cons_coe, ← Multiset.singleton_add]
      abel
    · simp [h1, h2]
      simp only [← Multiset.coe_add, ← Multiset.cons_coe, ← Multiset.singleton_add]
      abel

lemma foldl_categorize_allVerdicts (l : List Verdict) (r : Results) :
    (allVerdicts (l.foldl categorize r) : Multiset Verdict) =
      (allVerdicts r : Multiset Verdict) + (l : Multiset Verdict) := by
  induction l generalizing r with
  | nil => simp
  | cons v t ih =>
      simp only [List.foldl_cons]
      rw [ih, categorize_allVerdicts]
      simp only [← Multiset.cons_coe, ← Multiset.singleton_add]
      abel

lemma probeVerdicts_length (sites : List Site) (username : String)
    (transport : Site → TransportOutcome) (vs : List Verdict)
    (h : probeVerdicts sites username transport = some vs) :
    vs.length = sites.length := by
  induction sites generalizing vs with
  | nil =>
      simp only [probeVerdicts] at h
      cases h
      rfl
  | cons s rest ih =>
      simp only [probeVerdicts] at h
      cases hc : check_username s username (transport s) with
      | none => rw [hc] at h; exact absurd h (by simp)
      | some p =>
          rw [hc] at h
          cases hr : probeVerdicts rest username transport with
          | none => rw [hr] at h; simp at h
          | some ws =>
              rw [hr] at h
              simp only [Option.map_some', Option.some_inj] at h
              subst h
              simp [ih ws hr]

/-- C1: when the scan completes, every site has yielded exactly one
verdict, each appended to exactly one bucket: the bucket lengths sum to
the number of sites, and the verdicts in the buckets are exactly the
probes' verdicts (no duplicates, no drops), even when every probe
fails. -/
theorem scan_partition (sites : List Site) (username : String)
    (transport : Site → TransportOutcome) (vs completed : List Verdict)
    (hprobe : probeVerdicts sites username transport = some vs)
    (hperm : completed.Perm vs) :
    (scan_username completed).found.length + (scan_username completed).not_found.length +
        (scan_username completed).errors.length = sites.length ∧
      (allVerdicts (scan_username completed) : Multiset Verdict) = (vs : Multiset Verdict) := by
  constructor
  · have h1 := foldl_categorize_length completed initResults
    have h2 := probeVerdicts_length sites username transport vs hprobe
    have h3 := List.Perm.length_eq hperm
    have e1 : initResults.found.length = 0 := rfl
    have e2 : initResults.not_found.length = 0 := rfl
    have e3 : initResults.errors.length = 0 := rfl
    rw [e1, e2, e3] at h1
    unfold scan_username
    omega
  · unfold scan_username
    rw [foldl_categorize_allVerdicts]
    have h0 : (allVerdicts initResults : Multiset Verdict) = 0 := rfl
    rw [h0, zero_add]
    exact Multiset.coe_eq_coe.mpr hperm

theorem scan_partition_witness :
    (scan_username [vTimeout]).found.length + (scan_username [vTimeout]).not_found.length +
        (scan_username [vTimeout]).errors.length = [goodSite].length ∧
      (allVerdicts (scan_username [vTimeout]) : Multiset Verdict) = ([vTimeout] : Multiset Verdict) :=
  scan_partition [goodSite] "alice" failTransport [vTimeout] [vTimeout] (by rfl) (List.Perm.refl _)

/-- C2 as stated is false: a url_template whose field is not named
`username` makes `format` raise `KeyError` at line 61, outside the
`try` block, so the probe raises past its boundary instead of
returning an Error verdict. -/
theorem check_username_raises_counterexample :
    check_username badTemplateSite "alice" (TransportOutcome.response 200 "") = none := by
  rfl

/-- C2 amended: for every site whose url_template resolves under the
identifier, the probe never raises: it always returns a verdict, and
every transport failure is converted into a status-error verdict
carrying a diagnostic string. -/
theorem check_username_no_raise (site : Site) (username url : String)
    (outcome : TransportOutcome)
    (hurl : formatTemplate site.url_template username = some url) :
    check_username site username outcome ≠ none ∧
      (isTransportFailure outcome = true →
        check_username site username outcome =
          some ({ site := site.name, url := url, status := "error",
                  error := failureDiagnostic outcome }, false) ∧
        (failureDiagnostic outcome).isSome = true) := by
  unfold check_username
  rw [hurl]
  cases outcome with
  | response code text => exact ⟨by simp, by simp [isTransportFailure]⟩
  | timeoutException => exact ⟨by simp, fun _ => ⟨rfl, rfl⟩⟩
  | connectError => exact ⟨by simp, fun _ => ⟨rfl, rfl⟩⟩
  | unsupportedProtocol => exact ⟨by simp, fun _ => ⟨rfl, rfl⟩⟩
  | otherException msg => exact ⟨by simp, fun _ => ⟨rfl, rfl⟩⟩

theorem check_username_no_raise_witness :
    check_username goodSite "alice" TransportOutcome.connectError ≠ none ∧
      (isTransportFailure TransportOutcome.connectError = true →
        check_username goodSite "alice" TransportOutcome.connectError =
          some ({ site := goodSite.name, url := "https://github.com/alice", status := "error",
                  error := failureDiagnostic TransportOutcome.connectError }, false) ∧
        (failureDiagnostic TransportOutcome.connectError).isSome = true) :=
  check_username_no_raise goodSite "alice" "https://github.com/alice"
    TransportOutcome.connectError (by rfl)

/-- C3 as stated is false: on a timeout the exception raised by the
request jumps over the sleep at line 106 straight to the handler, so
the probe returns without sleeping (the `false` flag below). -/
theorem sleep_skipped_counterexample :
    check_username goodSite "alice" TransportOutcome.timeoutException =
      some (vTimeout, false) := by
  rfl

/-- C3 amended: the rate-limit sleep runs before returning exactly when
the transport produced a completed response; on every exception path
(timeout, connection failure, protocol failure, uncategorized failure)
the sleep is skipped. -/
theorem rate_limit_sleep_iff_response (site : Site) (username url : String)
    (outcome : TransportOutcome) (v : Verdict) (b : Bool)
    (hurl : formatTemplate site.url_template username = some url)
    (hcheck : check_username site username outcome = some (v, b)) :
    b = isResponse outcome := by
  unfold check_username at hcheck
  rw [hurl] at hcheck
  cases outcome with
  | response code text =>
      simp only [Option.some_inj, Prod.mk.injEq] at hcheck
      simp [isResponse, ← hcheck.2]
  | timeoutException =>
      simp only [Option.some_inj, Prod.mk.injEq] at hcheck
      simp [isResponse, ← hcheck.2]
  | connectError =>
      simp only [Option.some_inj, Prod.mk.injEq] at hcheck
      simp [isResponse, ← hcheck.2]
  | unsupportedProtocol =>
      simp only [Option.some_inj, Prod.mk.injEq] at hcheck
      simp [isResponse, ← hcheck.2]
  | otherException msg =>
      simp only [Option.some_inj, Prod.mk.injEq] at hcheck
      simp [isResponse, ← hcheck.2]

theorem rate_limit_sleep_iff_response_witness :
    (false : Bool) = isResponse TransportOutcome.timeoutException :=
  rate_limit_sleep_iff_response goodSite "alice" "https://github.com/alice"
    TransportOutcome.timeoutException vTimeout false (by rfl) (by rfl)

/-- C4: each transport-failure class maps to its fixed diagnostic:
timeout to "Timeout", connection failure to "Connection failed",
protocol failure to "SSL/TLS error", anything else to its message, all
with status error. -/
theorem transport_failure_classification (site : Site) (username url msg : String)
    (hurl : formatTemplate site.url_template username = some url) :
    check_username site username TransportOutcome.timeoutException =
      some ({ site := site.name, url := url, status := "error", error := some "Timeout" }, false) ∧
    check_username site username TransportOutcome.connectError =
      some ({ site := site.name, url := url, status := "error", error := some "Connection failed" }, false) ∧
    check_username site username TransportOutcome.unsupportedProtocol =
      some ({ site := site.name, url := url, status := "error", error := some "SSL/TLS error" }, false) ∧
    check_username site username (TransportOutcome.otherException msg) =
      some ({ site := site.name, url := url, status := "error", error := some msg }, false) := by
  unfold check_username
  rw [hurl]
  exact ⟨rfl, rfl, rfl, rfl⟩

theorem transport_failure_classification_witness :
    check_username goodSite "alice" TransportOutcome.timeoutException =
      some ({ site := goodSite.name, url := "https://github.com/alice", status := "error", error := some "Timeout" }, false) ∧
    check_username goodSite "alice" TransportOutcome.connectError =
      some ({ site := goodSite.name, url := "https://github.com/alice", status := "error", error := some "Connection failed" }, false) ∧
    check_username goodSite "alice" TransportOutcome.unsupportedProtocol =
      some ({ site := goodSite.name, url := "https://github.com/alice", status := "error", error := some "SSL/TLS error" }, false) ∧
    check_username goodSite "alice" (TransportOutcome.otherException "boom") =
      some ({ site := goodSite.name, url := "https://github.com/alice", status := "error", error := some "boom" }, false) :=
  transport_failure_classification goodSite "alice" "https://github.com/alice" "boom" (by rfl)

/-- C7: repeating the identical scan against the same deterministic
transport yields the same multiset of verdicts, whatever the two
completion orders were: both runs' buckets hold exactly the probes'
verdicts. -/
theorem scan_idempotent (sites : List Site) (username : String)
    (transport : Site → TransportOutcome) (vs completed1 completed2 : List Verdict)
    (_hprobe : probeVerdicts sites username transport = some vs)
    (h1 : completed1.Perm vs) (h2 : completed2.Perm vs) :
    (allVerdicts (scan_username completed1) : Multiset Verdict) = (vs : Multiset Verdict) ∧
      (allVerdicts (scan_username completed2) : Multiset Verdict) = (vs : Multiset Verdict) := by
  unfold scan_username
  rw [foldl_categorize_allVerdicts, foldl_categorize_allVerdicts]
  have h0 : (allVerdicts initResults : Multiset Verdict) = 0 := rfl
  rw [h0, zero_add, zero_add]
  exact ⟨Multiset.coe_eq_coe.mpr h1, Multiset.coe_eq_coe.mpr h2⟩

theorem scan_idempotent_witness :
    (allVerdicts (scan_username [vA, vB]) : Multiset Verdict) = ([vA, vB] : Multiset Verdict) ∧
      (allVerdicts (scan_username [vB, vA]) : Multiset Verdict) = ([vA, vB] : Multiset Verdict) :=
  scan_idempotent [siteA, siteB] "alice" mockTransport [vA, vB] [vA, vB] [vB, vA]
    (by rfl) (by decide) (by decide)

/-- C9: a scan over an empty site list raises nothing and returns the
Result Set with all three buckets empty. -/
theorem scan_empty_sites (username : String) (transport : Site → TransportOutcome) :
    probeVerdicts [] username transport = some [] ∧ scan_username [] = initResults :=
  ⟨rfl, rfl⟩

/-- C5: for a status_code site, HTTP 200 classifies found, HTTP 404
classifies not_found, and any other code classifies unknown with the
error recording the numeric code. -/
theorem status_code_classification (site : Site) (username url body : String) (code : Nat)
    (hdt : site.detection_type = "status_code")
    (hurl : formatTemplate site.url_template username = some url) :
    check_username site username (TransportOutcome.response 200 body) =
      some ({ site := site.name, url := url, status := "found", error := none }, true) ∧
    check_username site username (TransportOutcome.response 404 body) =
      some ({ site := site.name, url := url, status := "not_found", error := none }, true) ∧
    (code ≠ 200 → code ≠ 404 →
      check_username site username (TransportOutcome.response code body) =
        some ({ site := site.name, url := url, status := "unknown",
                error := some ("Unexpected status: " ++ toString code) }, true)) := by
  unfold check_username
  rw [hurl]
  refine ⟨by simp [hdt], by simp [hdt], ?_⟩
  intro h200 h404
  simp [hdt, h200, h404]

theorem status_code_classification_witness :
    (check_username goodSite "alice" (TransportOutcome.response 200 "") =
      some ({ site := goodSite.name, url := "https://github.com/alice", status := "found", error := none }, true) ∧
    check_username goodSite "alice" (TransportOutcome.response 404 "") =
      some ({ site := goodSite.name, url := "https://github.com/alice", status := "not_found", error := none }, true) ∧
    ((500 : Nat) ≠ 200 → (500 : Nat) ≠ 404 →
      check_username goodSite "alice" (TransportOutcome.response 500 "") =
        some ({ site := goodSite.name, url := "https://github.com/alice", status := "unknown",
                error := some ("Unexpected status: " ++ toString (500 : Nat)) }, true))) ∧
    check_username goodSite "alice" (TransportOutcome.response 500 "") =
      some ({ site := goodSite.name, url := "https://github.com/alice", status := "unknown",
              error := some "Unexpected status: 500" }, true) :=
  ⟨status_code_classification goodSite "alice" "https://github.com/alice" "" 500 (by rfl) (by rfl),
   by exact (status_code_classification goodSite "alice" "https://github.com/alice" "" 500
       (by rfl) (by rfl)).2.2 (by decide) (by decide)⟩

/-- C6: for a message_body site, HTTP 404 classifies not_found
regardless of body; HTTP 200 classifies not_found when the marker is
non-empty and its lowercasing occurs in the lowercased body, and found
otherwise; any other code classifies unknown with the error recording
the code. -/
theorem message_body_classification (site : Site) (username url body : String) (code : Nat)
    (hdt : site.detection_type = "message_body")
    (hurl : formatTemplate site.url_template username = some url) :
    check_username site username (TransportOutcome.response 404 body) =
      some ({ site := site.name, url := url, status := "not_found", error := none }, true) ∧
    (((site.error_message.getD "") != "" &&
        strContains (pyLower body) (pyLower (site.error_message.getD ""))) = true →
      check_username site username (TransportOutcome.response 200 body) =
        some ({ site := site.name, url := url, status := "not_found", error := none }, true)) ∧
    (((site.error_message.getD "") != "" &&
        strContains (pyLower body) (pyLower (site.error_message.getD ""))) = false →
      check_username site username (TransportOutcome.response 200 body) =
        some ({ site := site.name, url := url, status := "found", error := none }, true)) ∧
    (code ≠ 200 → code ≠ 404 →
      check_username site username (TransportOutcome.response code body) =
        some ({ site := site.name, url := url, status := "unknown",
                error := some ("Status: " ++ toString code) }, true)) := by
  unfold check_username
  rw [hurl]
  refine ⟨by simp [hdt], ?_, ?_, ?_⟩
  · intro hmark
    simp [hdt, hmark]
  · intro hmark
    simp [hdt, hmark]
  · intro h200 h404
    simp [hdt, h200, h404]

theorem message_body_classification_witness :
    check_username mbSite "alice" (TransportOutcome.response 404 "whatever") =
      some ({ site := mbSite.name, url := "https://mb.test/alice", status := "not_found", error := none }, true) ∧
    check_username mbSite "alice" (TransportOutcome.response 200 "page: User Not Found here") =
      some ({ site := mbSite.name, url := "https://mb.test/alice", status := "not_found", error := none }, true) ∧
    check_username mbSite "alice" (TransportOutcome.response 200 "Welcome johndoe") =
      some ({ site := mbSite.name, url := "https://mb.test/alice", status := "found", error := none }, true) ∧
    check_username mbSite "alice" (TransportOutcome.response 500 "oops") =
      some ({ site := mbSite.name, url := "https://mb.test/alice", status := "unknown",
              error := some "Status: 500" }, true) :=
  ⟨(message_body_classification mbSite "alice" "https://mb.test/alice" "whatever" 500
      (by rfl) (by rfl)).1,
   (message_body_classification mbSite "alice" "https://mb.test/alice" "page: User Not Found here" 500
      (by rfl) (by rfl)).2.1 (by decide),
   (message_body_classification mbSite "alice" "https://mb.test/alice" "Welcome johndoe" 500
      (by rfl) (by rfl)).2.2.1 (by decide),
   by
     have h := (message_body_classification mbSite "alice" "https://mb.test/alice" "oops" 500
       (by rfl) (by rfl)).2.2.2 (by decide) (by decide)
     simpa using h⟩

/-- C10: a message_body site whose descriptor omits error_message does
not fail: the marker defaults to empty, every HTTP 200 response
classifies found, and HTTP 404 still classifies not_found. -/
theorem missing_error_message_default (site : Site) (username url body : String)
    (hdt : site.detection_type = "message_body")
    (hem : site.error_message = none)
    (hurl : formatTemplate site.url_template username = some url) :
    check_username site username (TransportOutcome.response 200 body) =
      some ({ site := site.name, url := url, status := "found", error := none }, true) ∧
    check_username site username (TransportOutcome.response 404 body) =
      some ({ site := site.name, url := url, status := "not_found", error := none }, true) := by
  unfold check_username
  rw [hurl]
  constructor
  · simp [hdt, hem]
  · simp [hdt, hem]

theorem missing_error_message_default_witness :
    check_username noMarkerSite "alice" (TransportOutcome.response 200 "user not found") =
      some ({ site := noMarkerSite.name, url := "https://nm.test/alice", status := "found", error := none }, true) ∧
    check_username noMarkerSite "alice" (TransportOutcome.response 404 "user not found") =
      some ({ site := noMarkerSite.name, url := "https://nm.test/alice", status := "not_found", error := none }, true) :=
  missing_error_message_default noMarkerSite "alice" "https://nm.test/alice" "user not found"
    (by rfl) (by rfl) (by rfl)

/-- C8: for verdicts produced with a recognized detection_type, the
error field is present exactly when the status is unknown or error;
found and not_found verdicts carry no error detail. -/
theorem error_present_iff (site : Site) (username url : String)
    (outcome : TransportOutcome) (v : Verdict) (b : Bool)
    (hdt : site.detection_type = "status_code" ∨ site.detection_type = "message_body")
    (hurl : formatTemplate site.url_template username = some url)
    (hcheck : check_username site username outcome = some (v, b)) :
    v.error.isSome = true ↔ (v.status = "unknown" ∨ v.status = "error") := by
  unfold check_username at hcheck
  rw [hurl] at hcheck
  cases outcome with
  | response code text =>
      rcases hdt with hdt | hdt <;> rw [hdt] at hcheck
      · by_cases h200 : code = 200
        · simp only [h200, Option.some_inj, Prod.mk.injEq] at hcheck
          simp at hcheck
          obtain ⟨hv, -⟩ := hcheck
          simp [← hv]
        · by_cases h404 : code = 404
          · simp only [h404, Option.some_inj, Prod.mk.injEq] at hcheck
            simp [h200] at hcheck
            obtain ⟨hv, -⟩ := hcheck
            simp [← hv]
          · simp only [Option.some_inj, Prod.mk.injEq] at hcheck
            simp [h200, h404] at hcheck
            obtain ⟨hv, -⟩ := hcheck
            simp [← hv]
      · by_cases h200 : code = 200
        · cases hmark : ((site.error_message.getD "") != "" &&
              strContains (pyLower text) (pyLower (site.error_message.getD ""))) with
          | true =>
              simp [h200, hmark] at hcheck
              obtain ⟨hv, -⟩ := hcheck
              simp [← hv]
          | false =>
              simp [h200, hmark] at hcheck
              obtain ⟨hv, -⟩ := hcheck
              simp [← hv]
        · by_cases h404 : code = 404
          · simp [h200, h404] at hcheck
            obtain ⟨hv, -⟩ := hcheck
            simp [← hv]
          · simp [h200, h404] at hcheck
            obtain ⟨hv, -⟩ := hcheck
            simp [← hv]
  | timeoutException =>
      simp at hcheck
      obtain ⟨hv, -⟩ := hcheck
      simp [← hv]
  | connectError =>
      simp at hcheck
      obtain ⟨hv, -⟩ := hcheck
      simp [← hv]
  | unsupportedProtocol =>
      simp at hcheck
      obtain ⟨hv, -⟩ := hcheck
      simp [← hv]
  | otherException msg =>
      simp at hcheck
      obtain ⟨hv, -⟩ := hcheck
      simp [← hv]

theorem error_present_iff_witness :
    (Verdict.mk "GitHub" "https://github.com/alice" "unknown" (some "Unexpected status: 500")).error.isSome = true ↔
      ((Verdict.mk "GitHub" "https://github.com/alice" "unknown" (some "Unexpected status: 500")).status = "unknown" ∨
       (Verdict.mk "GitHub" "https://github.com/alice" "unknown" (some "Unexpected status: 500")).status = "error") :=
  error_present_iff goodSite "alice" "https://github.com/alice"
    (TransportOutcome.response 500 "")
    (Verdict.mk "GitHub" "https://github.com/alice" "unknown" (some "Unexpected status: 500")) true
    (Or.inl (by rfl)) (by rfl) (by rfl)

end OSINT
